import Mathlib

/-!
# Verification of the mock sync server

Shallow embedding of `src/apps/sync-server/backend/mock_sync_server.py`:
a minimal HTTP test double with two endpoints (`GET /v1/health`,
`POST /v1/sync`) and a startup flag `--fail-sync` forcing the sync
endpoint to answer 500.

The handler class subclasses Python's `http.server.BaseHTTPRequestHandler`;
the parts of that base class the program's observable behaviour depends on
(method dispatch to `do_GET`/`do_POST`, the 501 fallback of
`handle_one_request` for methods without a handler, and `send_error`'s
HTML error page) are embedded here as well, following CPython's
`http/server.py`.

Bytes are modelled as `Nat` (values < 256), byte strings as `List Nat`.
A handler that lets an exception escape its `do_*` method (closing the
connection without a response) is modelled as `response = none`.
-/

/-- Run-time configuration, built once in `main` from process arguments:
`--host` (default `"127.0.0.1"`), `--port` (default `8080`), `--fail-sync`
(default off). Immutable for the server's lifetime. -/
structure ServerConfig where
  host : String
  port : Nat
  failSync : Bool
deriving Repr, DecidableEq

/-- An incoming HTTP request as the handler sees it: the request-line
method and path, the header block, and the bytes available on `self.rfile`
(the request body as sent by the client). -/
structure Request where
  method : String
  path : String
  headers : List (String × String)
  rfileData : List Nat
deriving Repr, DecidableEq

/-- An HTTP response: status code, headers in the order they are sent,
and the body bytes written to `self.wfile`.  The `Server` and `Date`
headers that `send_response` adds are time/version dependent and carry no
request- or configuration-dependent information, so they are omitted. -/
structure Response where
  status : Nat
  headers : List (String × String)
  body : List Nat
deriving Repr, DecidableEq

/-- The observable outcome of handling one request: the response written
to the socket (`none` when an exception escapes the `do_*` method, in
which case the connection is dropped without a response), and the lines
the handler printed to standard output. -/
structure HandlerResult where
  response : Option Response
  log : List String
deriving Repr, DecidableEq

/-- Lower-casing of a header name (`str.lower()`; header names are
ASCII). -/
def asciiLower (s : String) : String :=
  String.mk (s.toList.map Char.toLower)

/-- `email.message.Message.get(name, failobj)`: case-insensitive lookup of
the first header whose name matches, returning `failobj` when absent. -/
def headerGet (headers : List (String × String)) (name : String)
    (failobj : String) : String :=
  match headers.find? (fun kv => asciiLower kv.1 == asciiLower name) with
  | some kv => kv.2
  | none => failobj

/-- Digit run of a Python integer literal after the first digit: digits,
optionally separated by single underscores (`1_0` is legal, `1__0` and a
trailing `_` are not).  `acc` is the value of the digits already read. -/
def pyDigitRest : List Char → Nat → Option Nat
  | [], acc => some acc
  | c :: rest, acc =>
    if c.isDigit then pyDigitRest rest (acc * 10 + (c.toNat - 48))
    else if c = '_' then
      match rest with
      | c2 :: rest2 =>
        if c2.isDigit then pyDigitRest rest2 (acc * 10 + (c2.toNat - 48))
        else none
      | [] => none
    else none

/-- Digit part of a Python integer literal: at least one digit, then
`pyDigitRest`. -/
def pyDigitPart : List Char → Option Nat
  | [] => none
  | c :: rest =>
    if c.isDigit then pyDigitRest rest (c.toNat - 48) else none

/-- The ASCII whitespace characters `int` strips from both ends of its
argument. -/
def isPySpace (c : Char) : Bool :=
  c = ' ' || c = '\t' || c = '\n' || c = '\x0b' || c = '\x0c' || c = '\r'

/-- Strip leading and trailing whitespace from a character list. -/
def stripWs (cs : List Char) : List Char :=
  ((cs.dropWhile isPySpace).reverse.dropWhile isPySpace).reverse

/-- Python's `int(s)` on a string: strips surrounding whitespace, accepts
an optional sign followed by a digit run, and raises `ValueError`
(modelled as `none`) on anything else. -/
def pythonInt (s : String) : Option Int :=
  match stripWs s.toList with
  | '-' :: rest => (pyDigitPart rest).map (fun n => -(n : Int))
  | '+' :: rest => (pyDigitPart rest).map (fun n => (n : Int))
  | cs => (pyDigitPart cs).map (fun n => (n : Int))

/-- `self.rfile.read(n)`: returns the next `n` bytes of the stream (all
remaining bytes when fewer are available or when `n` is negative, as for
a buffered reader reading to EOF). -/
def rfileRead (data : List Nat) (n : Int) : List Nat :=
  if n < 0 then data else data.take n.toNat

/-- Is `b` a UTF-8 continuation byte (`0x80..0xBF`)? -/
def isCont (b : Nat) : Bool := 0x80 ≤ b && b ≤ 0xBF

/-- Allowed range of the first continuation byte of a three-byte UTF-8
sequence with lead byte `b` (excludes overlong encodings and
surrogates). -/
def cont1ok3 (b b1 : Nat) : Bool :=
  if b = 0xE0 then 0xA0 ≤ b1 && b1 ≤ 0xBF
  else if b = 0xED then 0x80 ≤ b1 && b1 ≤ 0x9F
  else isCont b1

/-- Allowed range of the first continuation byte of a four-byte UTF-8
sequence with lead byte `b` (excludes overlong encodings and code points
above `0x10FFFF`). -/
def cont1ok4 (b b1 : Nat) : Bool :=
  if b = 0xF0 then 0x90 ≤ b1 && b1 ≤ 0xBF
  else if b = 0xF4 then 0x80 ≤ b1 && b1 ≤ 0x8F
  else isCont b1

/-- The Unicode replacement character U+FFFD. -/
def replChar : Char := Char.ofNat 0xFFFD

/-- `bytes.decode("utf-8", errors="replace")`: lossy UTF-8 decoding.  A
well-formed sequence decodes to its code point; an ill-formed sequence is
replaced by U+FFFD and decoding resumes at the first byte that broke the
sequence (CPython's substitution of maximal subparts). -/
def utf8DecodeReplace : List Nat → List Char
  | [] => []
  | b :: rest =>
    if b ≤ 0x7F then Char.ofNat b :: utf8DecodeReplace rest
    else if b ≤ 0xC1 then replChar :: utf8DecodeReplace rest
    else if b ≤ 0xDF then
      match rest with
      | b1 :: r =>
        if isCont b1 then
          Char.ofNat ((b - 0xC0) * 0x40 + (b1 - 0x80)) :: utf8DecodeReplace r
        else replChar :: utf8DecodeReplace (b1 :: r)
      | [] => [replChar]
    else if b ≤ 0xEF then
      match rest with
      | b1 :: r =>
        if cont1ok3 b b1 then
          match r with
          | b2 :: r2 =>
            if isCont b2 then
              Char.ofNat ((b - 0xE0) * 0x1000 + (b1 - 0x80) * 0x40 + (b2 - 0x80))
                :: utf8DecodeReplace r2
            else replChar :: utf8DecodeReplace (b2 :: r2)
          | [] => [replChar]
        else replChar :: utf8DecodeReplace (b1 :: r)
      | [] => [replChar]
    else if b ≤ 0xF4 then
      match rest with
      | b1 :: r =>
        if cont1ok4 b b1 then
          match r with
          | b2 :: r2 =>
            if isCont b2 then
              match r2 with
              | b3 :: r3 =>
                if isCont b3 then
                  Char.ofNat ((b - 0xF0) * 0x40000 + (b1 - 0x80) * 0x1000
                      + (b2 - 0x80) * 0x40 + (b3 - 0x80)) :: utf8DecodeReplace r3
                else replChar :: utf8DecodeReplace (b3 :: r3)
              | [] => [replChar]
            else replChar :: utf8DecodeReplace (b2 :: r2)
          | [] => [replChar]
        else replChar :: utf8DecodeReplace (b1 :: r)
      | [] => [replChar]
    else replChar :: utf8DecodeReplace rest

/-- Lossy UTF-8 decoding packaged as a `String`, as the handler's
`body` variable holds it. -/
def decodeStr (l : List Nat) : String := String.mk (utf8DecodeReplace l)

/-- UTF-8 encoding of one code point. -/
def utf8EncodeCp (c : Nat) : List Nat :=
  if c ≤ 0x7F then [c]
  else if c ≤ 0x7FF then [0xC0 + c / 0x40, 0x80 + c % 0x40]
  else if c ≤ 0xFFFF then
    [0xE0 + c / 0x1000, 0x80 + (c / 0x40) % 0x40, 0x80 + c % 0x40]
  else
    [0xF0 + c / 0x40000, 0x80 + (c / 0x1000) % 0x40,
     0x80 + (c / 0x40) % 0x40, 0x80 + c % 0x40]

/-- UTF-8 encoding of a string to bytes (`str.encode`); the source's byte
literals `b"ok"` etc. are ASCII, where this is the identity on code
points. -/
def utf8Bytes (s : String) : List Nat :=
  (s.toList.map Char.toNat).flatMap utf8EncodeCp

/-- `SyncHandler._send(status, body)`: `send_response(status)` followed by
a `Content-Type: text/plain` header, a `Content-Length` header equal to
`str(len(body))`, `end_headers()`, and the body bytes. -/
def _send (status : Nat) (body : List Nat) : Response :=
  { status := status
    headers := [("Content-Type", "text/plain"),
                ("Content-Length", toString body.length)]
    body := body }

/-- Escape of a single character under `html.escape(·, quote=False)`. -/
def htmlEscapeChar (c : Char) : List Char :=
  if c = '&' then "&amp;".toList
  else if c = '<' then "&lt;".toList
  else if c = '>' then "&gt;".toList
  else [c]

/-- `html.escape(s, quote=False)`, as `send_error` applies to its message:
escapes `&`, `<` and `>`. -/
def htmlEscape (s : String) : String :=
  String.mk (s.toList.flatMap htmlEscapeChar)

/-- The body of a `BaseHTTPRequestHandler.send_error` page:
`DEFAULT_ERROR_MESSAGE` with the code, escaped message and explanation
substituted (CPython `http/server.py`). -/
def errorContent (code : Nat) (message explain : String) : String :=
  "<!DOCTYPE HTML>\n<html lang=\"en\">\n    <head>\n        <meta charset=\"utf-8\">\n        <title>Error response</title>\n    </head>\n    <body>\n        <h1>Error response</h1>\n        <p>Error code: "
    ++ toString code
    ++ "</p>\n        <p>Message: "
    ++ htmlEscape message
    ++ ".</p>\n        <p>Error code explanation: "
    ++ toString code
    ++ " - "
    ++ htmlEscape explain
    ++ ".</p>\n    </body>\n</html>\n"

/-- `BaseHTTPRequestHandler.send_error(code, message)`: status line, then
`Connection: close`, `Content-Type: text/html;charset=utf-8` and a
`Content-Length` equal to the error page's length — but the page itself
is written to `wfile` only under the final
`if self.command != 'HEAD' and body` guard: a HEAD request gets the
headers and no body.  (For a `501` the page is never empty, so the
`and body` truthiness check reduces to the HEAD check.)  `command` is the
request method. -/
def sendError (command : String) (code : Nat) (message explain : String) :
    Response :=
  let page := utf8Bytes (errorContent code message explain)
  { status := code
    headers := [("Connection", "close"),
                ("Content-Type", "text/html;charset=utf-8"),
                ("Content-Length", toString page.length)]
    body := if command = "HEAD" then [] else page }

/-- `SyncHandler.do_GET`: `200 ok` for `/v1/health`, `404 not found`
otherwise.  Prints nothing. -/
def do_GET (req : Request) : HandlerResult :=
  if req.path = "/v1/health" then
    { response := some (_send 200 (utf8Bytes "ok")), log := [] }
  else
    { response := some (_send 404 (utf8Bytes "not found")), log := [] }

/-- The request body `do_POST` reads:
`int(self.headers.get("Content-Length", "0"))` then
`self.rfile.read(content_length)`; `none` when `int` raises
`ValueError`. -/
def syncBodyBytes (req : Request) : Option (List Nat) :=
  (pythonInt (headerGet req.headers "Content-Length" "0")).map
    (rfileRead req.rfileData)

/-- The marker line `do_POST` prints before echoing the decoded body. -/
def syncMarkerLine : String := "[mock-sync-server] received sync request:"

/-- `SyncHandler.do_POST`: `404` off `/v1/sync`; otherwise read the body
per `Content-Length`, print the marker line and the lossily decoded body,
then answer `500 sync failed` in failure mode and `202 accepted`
otherwise.  A malformed `Content-Length` makes `int` raise before
anything is printed, so no response and no log. -/
def do_POST (failSync : Bool) (req : Request) : HandlerResult :=
  if req.path ≠ "/v1/sync" then
    { response := some (_send 404 (utf8Bytes "not found")), log := [] }
  else
    match syncBodyBytes req with
    | none => { response := none, log := [] }
    | some bodyBytes =>
      let body := decodeStr bodyBytes
      let log := [syncMarkerLine, body]
      if failSync then
        { response := some (_send 500 (utf8Bytes "sync failed")), log := log }
      else
        { response := some (_send 202 (utf8Bytes "accepted")), log := log }

/-- `BaseHTTPRequestHandler.handle_one_request` dispatch (CPython
`http/server.py`): a request whose method has a `do_<METHOD>` handler is
routed to it; any other method gets
`send_error(501, "Unsupported method ('<METHOD>')")`.  `SyncHandler`
defines exactly `do_GET` and `do_POST`. -/
def handleRequest (failSync : Bool) (req : Request) : HandlerResult :=
  if req.method = "GET" then do_GET req
  else if req.method = "POST" then do_POST failSync req
  else
    { response := some (sendError req.method 501
        ("Unsupported method ('" ++ req.method ++ "')")
        "Server does not support this operation")
      log := [] }

/-- The two banner lines `main` prints to standard output at startup. -/
def startupBanner (cfg : ServerConfig) : List String :=
  ["[mock-sync-server] listening on http://" ++ cfg.host ++ ":"
      ++ toString cfg.port ++ " ("
      ++ (if cfg.failSync then "fail" else "normal") ++ " mode)",
   "[mock-sync-server] endpoints: GET /v1/health, POST /v1/sync"]

/-- Everything the process writes to standard output over its lifetime
when it serves the given requests: the startup banner, then each
request's handler log.  `SyncHandler.log_message` is overridden to do
nothing, so no per-connection access line is ever emitted. -/
def processStdout (cfg : ServerConfig) (reqs : List Request) : List String :=
  startupBanner cfg ++ reqs.flatMap (fun r => (handleRequest cfg.failSync r).log)


/-- The `Content-Type` header of a handler outcome's response, when
there is one. -/
def responseContentType (hr : HandlerResult) : Option String :=
  hr.response.map (fun r => headerGet r.headers "Content-Type" "")

/-- The `Content-Length` header of a handler outcome's response, when
there is one. -/
def responseContentLength (hr : HandlerResult) : Option String :=
  hr.response.map (fun r => headerGet r.headers "Content-Length" "")

/-! ## Helper lemmas -/

/-- The full outcome of a well-formed sync request: the mode-dependent
status and body, and the two stdout lines. -/
theorem handleRequest_sync (failSync : Bool) (req : Request) (n : Int)
    (hm : req.method = "POST") (hp : req.path = "/v1/sync")
    (hn : pythonInt (headerGet req.headers "Content-Length" "0") = some n) :
    handleRequest failSync req =
      { response := some (_send (if failSync then 500 else 202)
          (utf8Bytes (if failSync then "sync failed" else "accepted")))
        log := [syncMarkerLine, decodeStr (rfileRead req.rfileData n)] } := by
  obtain ⟨m, p, hs, data⟩ := req
  simp only at hm hp hn
  subst hm; subst hp
  simp only [handleRequest, do_POST, syncBodyBytes] at *
  simp only [hn, Option.map_some]
  norm_num
  cases failSync <;> rfl

/-! ## Claims -/

/-- C3: Every GET request to `/v1/health` is answered with status 200,
body `"ok"`, and a `Content-Type: text/plain` header, for any headers and
stream contents and independently of failure mode. -/
theorem C3_health_ok (failSync : Bool) (hs : List (String × String))
    (data : List Nat) :
    handleRequest failSync
        { method := "GET", path := "/v1/health", headers := hs, rfileData := data }
      = { response := some
            { status := 200
              headers := [("Content-Type", "text/plain"), ("Content-Length", "2")]
              body := utf8Bytes "ok" }
          log := [] } := rfl

/-- C2 counterexample: a PUT request (a method other than GET/POST) is
answered by the HTTP base class with status 501, not 404: `SyncHandler`
defines no `do_PUT`. -/
theorem C2_counterexample :
    (handleRequest false
        { method := "PUT", path := "/v1/health", headers := [], rfileData := [] }).response.map
        Response.status = some 501
    ∧ some (501 : Nat) ≠ some (404 : Nat) := by
  refine ⟨rfl, by decide⟩

/-- C2 (amended): among requests whose method is GET or POST — the two
methods the handler implements — every method/path combination other than
(GET, `/v1/health`) and (POST, `/v1/sync`) is answered 404 with body
`"not found"`; a request with any other method instead receives the base
class's 501 `Unsupported method` error. -/
theorem C2_offroute_404 (failSync : Bool) (req : Request)
    (hgp : req.method = "GET" ∨ req.method = "POST")
    (hh : ¬(req.method = "GET" ∧ req.path = "/v1/health"))
    (hs : ¬(req.method = "POST" ∧ req.path = "/v1/sync")) :
    (handleRequest failSync req).response
      = some (_send 404 (utf8Bytes "not found")) := by
  obtain ⟨m, p, hds, data⟩ := req
  simp only at hgp hh hs
  rcases hgp with h | h <;> subst h
  · have hp : ¬ p = "/v1/health" := fun hp => hh ⟨rfl, hp⟩
    simp [handleRequest, do_GET, hp]
  · have hp : ¬ p = "/v1/sync" := fun hp => hs ⟨rfl, hp⟩
    simp [handleRequest, do_POST, hp]

/-- C2 witness: `GET /other` is answered 404 `"not found"`. -/
theorem C2_offroute_404_witness :
    (handleRequest false
        { method := "GET", path := "/other", headers := [], rfileData := [] }).response
      = some (_send 404 (utf8Bytes "not found")) :=
  C2_offroute_404 false _ (Or.inl rfl) (by decide) (by decide)

/-- C10: the `--fail-sync` flag is invisible everywhere except on the sync
endpoint: any request whose method/path combination is not
(POST, `/v1/sync`) produces the identical handler outcome — response
status, headers, body, and log — whether the flag is set or not. -/
theorem C10_noninterference (req : Request)
    (h : ¬(req.method = "POST" ∧ req.path = "/v1/sync")) :
    handleRequest true req = handleRequest false req := by
  obtain ⟨m, p, hds, data⟩ := req
  simp only at h
  by_cases hg : m = "GET"
  · subst hg; rfl
  · by_cases hpo : m = "POST"
    · subst hpo
      have hp : ¬ p = "/v1/sync" := fun hp => h ⟨rfl, hp⟩
      simp [handleRequest, do_POST, hp]
    · simp [handleRequest, hg, hpo]

/-- C10 witness: `GET /v1/health` gets the same outcome in both modes. -/
theorem C10_noninterference_witness :
    handleRequest true
        { method := "GET", path := "/v1/health", headers := [], rfileData := [] }
      = handleRequest false
        { method := "GET", path := "/v1/health", headers := [], rfileData := [] } :=
  C10_noninterference _ (by decide)

/-- Every response the handler produces is either built by
`SyncHandler._send` or is the base class's 501 error page for a method
without a `do_*` handler. -/
theorem handleRequest_shape (failSync : Bool) (req : Request) (resp : Response)
    (h : (handleRequest failSync req).response = some resp) :
    ((req.method = "GET" ∨ req.method = "POST") ∧ ∃ s b, resp = _send s b)
    ∨ (resp = sendError req.method 501
          ("Unsupported method ('" ++ req.method ++ "')")
          "Server does not support this operation"
        ∧ ¬req.method = "GET" ∧ ¬req.method = "POST") := by
  by_cases hg : req.method = "GET"
  · left
    refine ⟨Or.inl hg, ?_⟩
    unfold handleRequest at h
    rw [if_pos hg] at h
    unfold do_GET at h
    by_cases hp : req.path = "/v1/health"
    · rw [if_pos hp] at h
      exact ⟨200, utf8Bytes "ok", (Option.some.inj h).symm⟩
    · rw [if_neg hp] at h
      exact ⟨404, utf8Bytes "not found", (Option.some.inj h).symm⟩
  · by_cases hpo : req.method = "POST"
    · left
      refine ⟨Or.inr hpo, ?_⟩
      unfold handleRequest at h
      rw [if_neg hg, if_pos hpo] at h
      unfold do_POST at h
      by_cases hp : req.path = "/v1/sync"
      · rw [if_neg (not_not_intro hp)] at h
        cases hsb : syncBodyBytes req with
        | none => rw [hsb] at h; exact absurd h (by simp)
        | some bodyBytes =>
          rw [hsb] at h
          cases failSync with
          | true => exact ⟨500, utf8Bytes "sync failed", (Option.some.inj h).symm⟩
          | false => exact ⟨202, utf8Bytes "accepted", (Option.some.inj h).symm⟩
      · rw [if_pos hp] at h
        exact ⟨404, utf8Bytes "not found", (Option.some.inj h).symm⟩
    · right
      unfold handleRequest at h
      rw [if_neg hg, if_neg hpo] at h
      exact ⟨(Option.some.inj h).symm, hg, hpo⟩

set_option maxRecDepth 8000 in
set_option maxHeartbeats 1000000 in
/-- C4 counterexample: the response to a PUT request (stdlib 501 error
page) carries `Content-Type: text/html;charset=utf-8`, not `text/plain`;
and the response to a HEAD request has an empty body (`send_error` writes
no body when `self.command == 'HEAD'`) while its `Content-Length` header
is the error page's length, not `"0"`. -/
theorem C4_counterexample :
    (responseContentType (handleRequest false
        { method := "PUT", path := "/v1/sync", headers := [], rfileData := [] })
      = some "text/html;charset=utf-8"
    ∧ "text/html;charset=utf-8" ≠ "text/plain")
    ∧ ((handleRequest false
        { method := "HEAD", path := "/v1/health", headers := [],
          rfileData := [] }).response.map Response.body = some []
    ∧ responseContentLength (handleRequest false
        { method := "HEAD", path := "/v1/health", headers := [], rfileData := [] })
      ≠ some (toString (List.length ([] : List Nat)))) :=
  ⟨⟨rfl, by decide⟩, ⟨rfl, by decide⟩⟩

/-- C4 (amended): every response to a request whose method is not HEAD
carries a `Content-Length` header equal to the exact byte length of its
body; every response to a GET or POST request — i.e. every response built
by the handler's own `_send` — also carries `Content-Type: text/plain`.
(Responses to other methods are the base class's 501 error page, with
content type `text/html;charset=utf-8`; for a HEAD request that response
carries the page's length in `Content-Length` but an empty body, since
`send_error` skips the body write for HEAD.) -/
theorem C4_content_headers (failSync : Bool) (req : Request) (resp : Response)
    (h : (handleRequest failSync req).response = some resp) :
    (req.method ≠ "HEAD" →
        headerGet resp.headers "Content-Length" "" = toString resp.body.length)
    ∧ ((req.method = "GET" ∨ req.method = "POST") →
        headerGet resp.headers "Content-Type" "" = "text/plain")
    ∧ (req.method = "HEAD" → resp.body = []) := by
  rcases handleRequest_shape failSync req resp h with ⟨hgp, s, b, rfl⟩ | ⟨rfl, hng, hnp⟩
  · refine ⟨fun _ => rfl, fun _ => rfl, fun hh => ?_⟩
    rcases hgp with hgp | hgp <;> rw [hh] at hgp <;> exact absurd hgp (by decide)
  · refine ⟨fun hne => ?_, fun hgp => ?_, fun hh => ?_⟩
    · simp only [sendError]
      rw [if_neg hne]
      rfl
    · rcases hgp with hgp | hgp
      · exact absurd hgp hng
      · exact absurd hgp hnp
    · simp [sendError, hh]

/-- C4 witness: the health response has an accurate `Content-Length`
(`"2"` for `b"ok"`) and `Content-Type: text/plain`; the HEAD clauses are
vacuous for a GET request. -/
theorem C4_content_headers_witness :
    (("GET" : String) ≠ "HEAD" →
        headerGet (_send 200 (utf8Bytes "ok")).headers "Content-Length" ""
          = toString (_send 200 (utf8Bytes "ok")).body.length)
    ∧ ((("GET" : String) = "GET" ∨ ("GET" : String) = "POST") →
        headerGet (_send 200 (utf8Bytes "ok")).headers "Content-Type" "" = "text/plain")
    ∧ (("GET" : String) = "HEAD" → (_send 200 (utf8Bytes "ok")).body = []) :=
  C4_content_headers false
    { method := "GET", path := "/v1/health", headers := [], rfileData := [] }
    (_send 200 (utf8Bytes "ok")) rfl

/-- C6: `do_POST` reads exactly `Content-Length` bytes from the request
stream: when the header holds the integer `n` and at least `n` bytes are
available, the body read is the first `n` bytes; when no `Content-Length`
header is present, the lookup defaults to `"0"` and zero bytes are read
(the body is empty). -/
theorem C6_body_read :
    (∀ (req : Request) (n : Nat),
        pythonInt (headerGet req.headers "Content-Length" "0") = some (n : Int) →
        n ≤ req.rfileData.length →
        syncBodyBytes req = some (req.rfileData.take n)
          ∧ (req.rfileData.take n).length = n)
    ∧ (∀ req : Request,
        (∀ kv ∈ req.headers, asciiLower kv.1 ≠ "content-length") →
        syncBodyBytes req = some []) := by
  constructor
  · intro req n hn hle
    refine ⟨?_, by simp [List.length_take, Nat.min_eq_left hle]⟩
    unfold syncBodyBytes
    rw [hn]
    simp [rfileRead]
  · intro req habs
    have hfind : req.headers.find?
        (fun kv => asciiLower kv.1 == asciiLower "Content-Length") = none := by
      rw [List.find?_eq_none]
      intro kv hkv
      have : asciiLower kv.1 ≠ "content-length" := habs kv hkv
      simpa [asciiLower] using this
    have hdef : headerGet req.headers "Content-Length" "0" = "0" := by
      unfold headerGet
      rw [hfind]
    unfold syncBodyBytes
    rw [hdef]
    have hz : pythonInt "0" = some 0 := by decide
    rw [hz]
    simp [rfileRead]

/-- C6 witness: a sync request with `Content-Length: 2` and three bytes
on the stream reads exactly the first two; one without a
`Content-Length` header reads nothing. -/
theorem C6_body_read_witness :
    (syncBodyBytes { method := "POST", path := "/v1/sync",
                     headers := [("Content-Length", "2")], rfileData := [1, 2, 3] }
      = some [1, 2]
    ∧ ([1, 2, 3].take 2).length = 2)
    ∧ syncBodyBytes { method := "POST", path := "/v1/sync",
                      headers := [("X-Other", "y")], rfileData := [9] }
      = some [] :=
  ⟨C6_body_read.1 _ 2 (by decide) (by decide), C6_body_read.2 _ (by decide)⟩

/-- A handler prints nothing except on the sync endpoint, where it prints
exactly the marker line and the decoded body. -/
theorem handleRequest_log_shape (failSync : Bool) (req : Request) :
    (handleRequest failSync req).log = []
    ∨ (req.method = "POST" ∧ req.path = "/v1/sync"
        ∧ ∃ n, pythonInt (headerGet req.headers "Content-Length" "0") = some n
          ∧ (handleRequest failSync req).log
              = [syncMarkerLine, decodeStr (rfileRead req.rfileData n)]) := by
  by_cases hg : req.method = "GET"
  · left
    unfold handleRequest
    rw [if_pos hg]
    unfold do_GET
    by_cases hp : req.path = "/v1/health"
    · rw [if_pos hp]
    · rw [if_neg hp]
  · by_cases hpo : req.method = "POST"
    · by_cases hp : req.path = "/v1/sync"
      · cases hn : pythonInt (headerGet req.headers "Content-Length" "0") with
        | none =>
          left
          unfold handleRequest
          rw [if_neg hg, if_pos hpo]
          unfold do_POST
          rw [if_neg (not_not_intro hp)]
          unfold syncBodyBytes
          rw [hn]
          rfl
        | some n =>
          refine Or.inr ⟨hpo, hp, n, rfl, ?_⟩
          rw [handleRequest_sync failSync req n hpo hp hn]
      · left
        unfold handleRequest
        rw [if_neg hg, if_pos hpo]
        unfold do_POST
        rw [if_pos hp]
    · left
      unfold handleRequest
      rw [if_neg hg, if_neg hpo]

/-- C9: over a whole run, every line on standard output is either one of
the two startup banner lines or comes from a sync submission, where it is
the marker line or the decoded request body; no per-connection access
line is ever emitted (`log_message` is overridden to do nothing). -/
theorem C9_stdout_only (cfg : ServerConfig) (reqs : List Request) (line : String)
    (h : line ∈ processStdout cfg reqs) :
    line ∈ startupBanner cfg
    ∨ ∃ req ∈ reqs, req.method = "POST" ∧ req.path = "/v1/sync"
        ∧ ∃ n, pythonInt (headerGet req.headers "Content-Length" "0") = some n
          ∧ (line = syncMarkerLine ∨ line = decodeStr (rfileRead req.rfileData n)) := by
  unfold processStdout at h
  rcases List.mem_append.mp h with hb | hl
  · exact Or.inl hb
  · right
    obtain ⟨req, hreq, hline⟩ := List.mem_flatMap.mp hl
    rcases handleRequest_log_shape cfg.failSync req with hz | ⟨hm, hp, n, hn, hlog⟩
    · rw [hz] at hline
      cases hline
    · rw [hlog] at hline
      refine ⟨req, hreq, hm, hp, n, hn, ?_⟩
      simpa using hline

/-- C9 witness: a run serving one health check and one sync submission
with body `"hi"`; the marker line on stdout is accounted for by the sync
request. -/
theorem C9_stdout_only_witness :
    syncMarkerLine ∈ startupBanner { host := "127.0.0.1", port := 8080, failSync := false }
    ∨ ∃ req ∈ [({ method := "GET", path := "/v1/health", headers := [],
                  rfileData := [] } : Request),
                { method := "POST", path := "/v1/sync",
                  headers := [("Content-Length", "2")], rfileData := [104, 105] }],
        req.method = "POST" ∧ req.path = "/v1/sync"
        ∧ ∃ n, pythonInt (headerGet req.headers "Content-Length" "0") = some n
          ∧ (syncMarkerLine = syncMarkerLine
              ∨ syncMarkerLine = decodeStr (rfileRead req.rfileData n)) :=
  C9_stdout_only { host := "127.0.0.1", port := 8080, failSync := false } _ _
    (by decide)


